import Mathlib

/-!
Shallow embedding of the multi-client Word add-in backend
(`src/backend/server.js`): tenant store, assistant-override store,
prompt composition and the four request handlers.

Modelling conventions:
* JavaScript string fields that the code only ever tests for truthiness
  (`!x`, `x || y`) are embedded as plain `String`s where `""` stands for
  both the empty string and an absent (`undefined`) field — JS truthiness
  identifies the two for strings.
* The optional `openaiApiKey` field of a client record is an
  `Option String`; `none` is an absent field, `some ""` a field holding
  the empty string (JS-falsy but present).
* File system effects are embedded as explicit state: the parse outcome
  of a flat file is an inductive (`missing` / `corrupt` / `parsed`), and a
  `writeFileSync` of a JSON value is modelled as the file now parsing to
  exactly that value.
* The outbound OpenAI call is cut at the call site: a handler's first
  phase returns either an early HTTP response or the upstream request it
  would issue (`CallStep.callUpstream` with the resolved API key, system
  prompt and user prompt; the fixed model identifier and the numeric
  temperature are constants in the source and are not inspected by any
  claim, so they are not carried).
-/

namespace WordAddin

/-- A record of `clients.json`: `{ id, secret, openaiApiKey? }`. -/
structure ClientRecord where
  id : String
  secret : String
  openaiApiKey : Option String
deriving DecidableEq, Repr

/-- JS truthiness of an optional string value: `undefined`/`null` and `""`
are falsy, every other string is truthy. -/
def truthyOpt : Option String → Bool
  | none => false
  | some s => !(s == "")

/-- The predicate of `clients.find` in `getClientRecord`:
`c.id === clientId && c.secret && c.secret === clientSecret`. -/
def clientMatch (clientId clientSecret : String) (c : ClientRecord) : Bool :=
  c.id == clientId && (!(c.secret == "") && c.secret == clientSecret)

/-- `getClientRecord(clientId, clientSecret)` from `server.js`: `undefined`
when either credential is falsy, otherwise the first record whose id
matches and whose secret is non-empty and equals the supplied secret. -/
def getClientRecord (clients : List ClientRecord) (clientId clientSecret : String) :
    Option ClientRecord :=
  if clientId == "" || clientSecret == "" then none
  else clients.find? (clientMatch clientId clientSecret)

/-- The in-memory `assistants` object: an insertion-ordered string map,
embedded as an association list. -/
abbrev AMap := List (String × String)

/-- Property read `assistants[k]` on the embedded object. -/
def lookupA (m : AMap) (k : String) : Option String :=
  match List.find? (fun p => p.1 == k) m with
  | some p => some p.2
  | none => none

/-- Property write `assistants[k] = v` on the embedded object: replace the
value in place at the (unique) existing key, append otherwise. -/
def insertA : AMap → String → String → AMap
  | [], k, v => [(k, v)]
  | p :: t, k, v => if p.1 == k then (k, v) :: t else p :: insertA t k v

/-- Parse outcome of `assistants.json` on disk. -/
inductive AssistantsFile where
  /-- `existsSync` is false. -/
  | missing
  /-- the file exists but `readFileSync`/`JSON.parse` throws. -/
  | corrupt
  /-- the file exists and parses to the object `m`. -/
  | parsed (m : AMap)
deriving DecidableEq, Repr

/-- `loadAssistants()` from `server.js`, as a function of the previous
in-memory mapping and the on-disk state: a missing file leaves the
mapping untouched (the `if (existsSync(...))` body is skipped), a parse
error resets it to `{}` in the catch block, and a successful parse
replaces it. -/
def loadAssistants (mem : AMap) (disk : AssistantsFile) : AMap :=
  match disk with
  | .missing => mem
  | .corrupt => []
  | .parsed m => m

/-- `saveAssistant(clientId, optimizedPrompt)` from `server.js`: reload
from disk, set the entry, write the whole mapping back. Returns the new
in-memory mapping and the new on-disk state. -/
def saveAssistant (mem : AMap) (disk : AssistantsFile) (clientId optimizedPrompt : String) :
    AMap × AssistantsFile :=
  let m := loadAssistants mem disk
  let m2 := insertA m clientId optimizedPrompt
  (m2, .parsed m2)

/-- The whitespace class of JavaScript `String.prototype.trim`:
ASCII whitespace plus no-break space, BOM and the Unicode line and
paragraph separators. -/
def isJsWs (c : Char) : Bool :=
  c == ' ' || c == '\t' || c == '\n' || c == '\r' ||
  c == '\u000B' || c == '\u000C' || c == '\u00A0' ||
  c == '\uFEFF' || c == '\u2028' || c == '\u2029'

/-- Trim on the character list: drop leading whitespace, then trailing. -/
def trimChars (l : List Char) : List Char :=
  (((l.dropWhile isJsWs).reverse.dropWhile isJsWs)).reverse

/-- JavaScript `s.trim()`. -/
def jsTrim (s : String) : String := ⟨trimChars s.data⟩

/-- The hard-coded default system prompt of `/api/ia`. -/
def defaultSystemPrompt : String :=
  "Você é um assistente jurídico brasileiro especializado em Direito Civil, Trabalhista e Previdenciário. Use linguagem técnica, clara e objetiva, conforme prática forense brasileira."

/-- The `fullPrompt` template of `/api/ia`: the template literal with the
task and the selected text (or the placeholder when the selected text is
falsy) spliced in, then `.trim()`. -/
def iaUserPrompt (prompt selectedText : String) : String :=
  jsTrim ("\nVocê é um assistente jurídico brasileiro.\nTarefa: " ++ prompt ++
    "\nTexto de referência (se houver):\n" ++
    (if selectedText == "" then "(nenhum texto selecionado)" else selectedText) ++
    "\nResponda apenas com o texto final, limpo, sem marcadores, sem asteriscos, sem emojis e pronto para ser utilizado em um documento Word (.docx).\n")

/-- The template segment of `fullPrompt` before the task, without the
leading newline that `.trim()` removes. -/
def iaLit1 : String := "Você é um assistente jurídico brasileiro.\nTarefa: "

/-- The template segment of `fullPrompt` between the task and the
reference text. -/
def iaLit2 : String := "\nTexto de referência (se houver):\n"

/-- The template segment of `fullPrompt` after the reference text,
without the trailing newline that `.trim()` removes. -/
def iaLit3 : String := "\nResponda apenas com o texto final, limpo, sem marcadores, sem asteriscos, sem emojis e pronto para ser utilizado em um documento Word (.docx)."

/-- Request body of `POST /api/ia`. -/
structure IaRequest where
  clientId : String
  clientSecret : String
  prompt : String
  selectedText : String
  mode : String
deriving DecidableEq, Repr

/-- What a handler does before any outbound call: answer early with an
HTTP status and error message, or issue the upstream chat-completion
request. -/
inductive CallStep where
  | respond (status : Nat) (error : String)
  | callUpstream (apiKey : String) (systemPrompt : String) (userPrompt : String)
deriving DecidableEq, Repr

/-- The API key an outbound call would use, `none` when no call is made. -/
def stepApiKey : CallStep → Option String
  | .respond _ _ => none
  | .callUpstream k _ _ => some k

/-- Whether the step is an outbound call at all. -/
def isUpstreamCall : CallStep → Bool
  | .respond _ _ => false
  | .callUpstream _ _ _ => true

/-- `clientRecord.openaiApiKey || process.env.OPENAI_API_KEY` followed by
the `if (!apiKey)` guard: the stored key when truthy, else the
environment key when truthy, else `none` (which the handlers turn into a
500 response). -/
def resolveApiKey (stored envKey : Option String) : Option String :=
  let k := if truthyOpt stored then stored else envKey
  if truthyOpt k then k else none

/-- The `/api/ia` handler up to (and excluding) the outbound call:
credential presence check, authentication, prompt presence check, API-key
resolution, assistants reload and message assembly, in source order. -/
def iaPhase1 (clients : List ClientRecord) (mem : AMap) (disk : AssistantsFile)
    (envKey : Option String) (req : IaRequest) : CallStep :=
  if req.clientId == "" || req.clientSecret == "" then
    .respond 400 "Missing clientId or clientSecret"
  else
    match getClientRecord clients req.clientId req.clientSecret with
    | none => .respond 401 "Invalid client credentials"
    | some r =>
      if req.prompt == "" then .respond 400 "Missing prompt"
      else
        match resolveApiKey r.openaiApiKey envKey with
        | none => .respond 500 "No OpenAI API key configured for this client"
        | some k =>
          let m := loadAssistants mem disk
          let sys :=
            match lookupA m req.clientId with
            | some s => if s == "" then defaultSystemPrompt else s
            | none => defaultSystemPrompt
          .callUpstream k sys (iaUserPrompt req.prompt req.selectedText)

/-- The `message.content` value of the first choice as `/api/ia` sees it:
either not a string (fails the `typeof` check) or a string. -/
inductive MsgContent where
  | notString
  | str (s : String)
deriving DecidableEq, Repr

/-- A single element of the `choices` array: `null`/`undefined`, or an
object whose `message` field is absent (`none`) or carries a content
value. -/
inductive ChoiceVal where
  | nullChoice
  | val (message : Option MsgContent)
deriving DecidableEq, Repr

/-- The shape of the completion response as `/api/ia` discriminates it:
the response itself falsy, `choices` absent or not an array, or a genuine
choices array. -/
inductive IaCompletion where
  | missing
  | badChoices
  | choices (cs : List ChoiceVal)
deriving DecidableEq, Repr

/-- The fixed fallback reply of `/api/ia`. -/
def iaFallback : String := "Não foi possível gerar resposta."

/-- The reply-extraction logic of `/api/ia` (lines 140–146): the first
choice's message content trimmed when it is a string, the fixed fallback
in every other case. -/
def extractIaAnswer : IaCompletion → String
  | .missing => iaFallback
  | .badChoices => iaFallback
  | .choices [] => iaFallback
  | .choices (c :: _) =>
    match c with
    | .nullChoice => iaFallback
    | .val none => iaFallback
    | .val (some .notString) => iaFallback
    | .val (some (.str s)) => jsTrim s

/-- The 200 response body of `/api/ia`. -/
structure IaResponse where
  text : String
  mode : String
deriving DecidableEq, Repr

/-- `res.json({ text: answer, mode: mode || "replace" })`. -/
def iaResponse (req : IaRequest) (completion : IaCompletion) : IaResponse :=
  { text := extractIaAnswer completion,
    mode := if req.mode == "" then "replace" else req.mode }

/-- Request body of `POST /api/configure`. -/
structure CfgRequest where
  clientId : String
  clientSecret : String
  rawPrompt : String
deriving DecidableEq, Repr

/-- The fixed system prompt of the optimization call in `/api/configure`. -/
def cfgSystemPrompt : String :=
  "Você é um especialista em Prompt Engineering para LLMs. Sua tarefa é transformar uma descrição curta de um papel profissional em um \x27System Prompt\x27 detalhado, robusto e otimizado para gerar documentos jurídicos de alta qualidade. O prompt otimizado deve instruir a IA a agir como esse profissional, usando terminologia correta e estilo formal. Responda APENAS com o prompt otimizado, sem explicações adicionais."

/-- The user message of the optimization call in `/api/configure`. -/
def cfgUserPrompt (rawPrompt : String) : String :=
  "Crie um System Prompt otimizado para esta descrição: \"" ++ rawPrompt ++ "\""

/-- The `/api/configure` handler up to the outbound optimization call. -/
def configurePhase1 (clients : List ClientRecord) (envKey : Option String)
    (req : CfgRequest) : CallStep :=
  if req.clientId == "" || req.clientSecret == "" then
    .respond 400 "Missing clientId or clientSecret"
  else
    match getClientRecord clients req.clientId req.clientSecret with
    | none => .respond 401 "Invalid client credentials"
    | some r =>
      if req.rawPrompt == "" then .respond 400 "Missing rawPrompt"
      else
        match resolveApiKey r.openaiApiKey envKey with
        | none => .respond 500 "No OpenAI API key configured"
        | some k => .callUpstream k cfgSystemPrompt (cfgUserPrompt req.rawPrompt)

/-- The fallback optimized prompt of `/api/configure`. -/
def cfgFallback : String := "Você é um assistente jurídico."

/-- The `choices[0].message.content` value as the unguarded extraction of
`/api/configure` and `/api/analyze` sees it: falsy (the `if (content)`
test fails), a truthy non-string (so `content.trim()` throws), or a
string. -/
inductive CfgContent where
  | falsyContent
  | truthyNonString
  | strContent (s : String)
deriving DecidableEq, Repr

/-- The completion response as `/api/configure` discriminates it: the
guard `completion && completion.choices && completion.choices.length > 0`
fails, or it passes and `choices[0].message` is falsy (so reading
`.content` throws), or it passes with a first message content value. -/
inductive CfgCompletion where
  | noChoices
  | firstMessageFalsy
  | firstContent (c : CfgContent)
deriving DecidableEq, Repr

/-- The optimized-prompt extraction of `/api/configure` (lines 199–203):
`some` the text that will be saved, or `none` when the extraction throws
and the outer catch answers 500 without saving. -/
def cfgOptimizedPrompt : CfgCompletion → Option String
  | .noChoices => some cfgFallback
  | .firstMessageFalsy => none
  | .firstContent .falsyContent => some cfgFallback
  | .firstContent .truthyNonString => none
  | .firstContent (.strContent s) =>
    if s == "" then some cfgFallback else some (jsTrim s)

/-- Outcome of the tail of `/api/configure` after the optimization call:
new store state plus the HTTP answer. -/
structure CfgResult where
  assistants : AMap
  disk : AssistantsFile
  status : Nat
  optimizedPrompt : Option String
deriving DecidableEq, Repr

/-- The tail of `/api/configure`: extract the optimized prompt, save it
through `saveAssistant`, answer `{ success, optimizedPrompt }`; on a
throwing extraction the catch answers 500 and nothing is saved. -/
def configureFinish (mem : AMap) (disk : AssistantsFile) (clientId : String)
    (c : CfgCompletion) : CfgResult :=
  match cfgOptimizedPrompt c with
  | none => ⟨mem, disk, 500, none⟩
  | some p =>
    let s := saveAssistant mem disk clientId p
    ⟨s.1, s.2, 200, some p⟩

/-- The `EXPERT_PROMPT` template literal of `server.js` (lines 216–235),
including its leading and trailing newline. -/
def expertPrompt : String :=
  "\nVocê é uma Autoridade Suprema em Direito Brasileiro e Linguística, atuando como o mais experiente Consultor Jurídico e Revisor de Textos.\nVocê detém conhecimento enciclopédico de todas as áreas do Direito (Civil, Penal, Trabalhista, Tributário, Constitucional, etc.) e domínio absoluto da Norma Culta da Língua Portuguesa.\n\nSua missão é realizar uma ANÁLISE FORENSE E LINGUÍSTICA DO DOCUMENTO fornecido.\n\nDiretrizes de Análise:\n1.  **Rigidez Jurídica**: Verifique a solidez dos argumentos, a correta aplicação dos institutos jurídicos e a vigência das leis citadas. Aponte fragilidades, riscos de nulidade ou teses ultrapassadas.\n2.  **Excelência Linguística**: Identifique erros gramaticais, de sintaxe, pontuação e regência. Avalie a clareza, a coesão e a elegância do texto. O estilo deve ser culto, formal e persuasivo, sem ser pedante.\n3.  **Estratégia Processual**: Analise se o texto atinge seu objetivo (convencer o juiz, notificar a parte, etc.) com eficácia.\n\nFormato da Resposta:\nForneça um RELATÓRIO TÉCNICO estruturado:\n-   **Resumo da Análise**: Uma visão geral da qualidade do documento.\n-   **Pontos Críticos (Jurídico)**: Erros graves ou sugestões de fundamentação.\n-   **Correções Linguísticas**: Lista de erros gramaticais ou de estilo encontrados.\n-   **Sugestões de Melhoria**: Recomendações para elevar o nível do documento.\n\nSe o documento estiver perfeito, reconheça a excelência. Se estiver ruim, seja implacável mas construtivo.\n"

/-- Request body of `POST /api/analyze`. -/
structure AnalyzeRequest where
  clientId : String
  clientSecret : String
  documentText : String
deriving DecidableEq, Repr

/-- The `/api/analyze` handler up to the outbound call: credential
presence check, authentication, document presence check, API-key
resolution, then the analysis call with the expert persona. -/
def analyzePhase1 (clients : List ClientRecord) (envKey : Option String)
    (req : AnalyzeRequest) : CallStep :=
  if req.clientId == "" || req.clientSecret == "" then
    .respond 400 "Missing clientId or clientSecret"
  else
    match getClientRecord clients req.clientId req.clientSecret with
    | none => .respond 401 "Invalid client credentials"
    | some r =>
      if req.documentText == "" then .respond 400 "Missing documentText"
      else
        match resolveApiKey r.openaiApiKey envKey with
        | none => .respond 500 "No OpenAI API key configured"
        | some k =>
          .callUpstream k expertPrompt
            ("Aqui está o texto do documento para análise:\n\n" ++ req.documentText)

/-- Request body of `POST /api/save-key`. -/
structure SaveKeyRequest where
  clientId : String
  clientSecret : String
  apiKey : String
deriving DecidableEq, Repr

/-- Parse outcome of `clients.json` as the save-key handler re-reads it.
`corrupt` covers both an unparsable file and a parse result that is not
an array (on which `findIndex` throws); either way the catch answers 500
and nothing is written. -/
inductive ClientsFile where
  | missing
  | corrupt
  | parsed (l : List ClientRecord)
deriving DecidableEq, Repr

/-- `allClients.findIndex(c => c.id === clientId && c.secret === clientSecret)`
followed by `allClients[clientIndex].openaiApiKey = apiKey`: `some` the
updated list when a record matches (first match updated in place), `none`
when `findIndex` yields `-1`. -/
def updateKey : List ClientRecord → String → String → String → Option (List ClientRecord)
  | [], _, _, _ => none
  | c :: t, cid, csec, key =>
    if c.id == cid && c.secret == csec then
      some ({ c with openaiApiKey := some key } :: t)
    else
      (updateKey t cid csec key).map (fun t2 => c :: t2)

/-- Outcome of `POST /api/save-key`: HTTP status and message, plus the
in-memory client list and the on-disk file after the handler ran. -/
structure SaveKeyResult where
  status : Nat
  body : String
  mem : List ClientRecord
  disk : ClientsFile
deriving DecidableEq, Repr

/-- The `/api/save-key` handler: field checks, authentication against the
in-memory list, fresh re-read of `clients.json`, in-place key update,
cache replacement and write-back. A missing file reads as `[]`, so the
lookup fails with the 500 of line 328; a corrupt file throws into the
catch (500, body abstracted as the thrown message); in both cases no
state changes. -/
def saveKeyHandler (mem : List ClientRecord) (disk : ClientsFile)
    (req : SaveKeyRequest) : SaveKeyResult :=
  if req.clientId == "" || req.clientSecret == "" then
    ⟨400, "Missing clientId or clientSecret", mem, disk⟩
  else if req.apiKey == "" then
    ⟨400, "Missing apiKey", mem, disk⟩
  else
    match getClientRecord mem req.clientId req.clientSecret with
    | none => ⟨401, "Invalid client credentials", mem, disk⟩
    | some _ =>
      match disk with
      | .corrupt => ⟨500, "err.message", mem, disk⟩
      | .missing => ⟨500, "Client found in cache but not in file.", mem, disk⟩
      | .parsed l =>
        match updateKey l req.clientId req.clientSecret req.apiKey with
        | some l2 => ⟨200, "API Key salva com sucesso.", l2, .parsed l2⟩
        | none => ⟨500, "Client found in cache but not in file.", mem, disk⟩

/-! ## General lemmas -/

theorem dropWhile_eq_self_append {p : Char → Bool} {l1 : List Char} (l2 : List Char)
    (h : l1.dropWhile p = l1) (hne : l1.isEmpty = false) :
    (l1 ++ l2).dropWhile p = l1 ++ l2 := by
  rw [List.dropWhile_append, h]
  simp [hne]

theorem trimChars_sandwich (l : List Char)
    (h1 : l.dropWhile isJsWs = l) (h2 : l.reverse.dropWhile isJsWs = l.reverse) :
    trimChars ('\n' :: (l ++ ['\n'])) = l := by
  cases l with
  | nil => decide
  | cons a t =>
    unfold trimChars
    rw [List.dropWhile_cons_of_pos (by decide : isJsWs '\n' = true)]
    rw [dropWhile_eq_self_append _ h1 (by simp)]
    rw [List.reverse_append, show List.reverse ['\n'] = ['\n'] from rfl,
      List.singleton_append]
    rw [List.dropWhile_cons_of_pos (by decide : isJsWs '\n' = true), h2,
      List.reverse_reverse]

theorem string_data_append (a b : String) : (a ++ b).data = a.data ++ b.data := rfl

set_option maxRecDepth 16384 in
theorem iaTemplate_trim (p s2 : String) :
    jsTrim ("\nVocê é um assistente jurídico brasileiro.\nTarefa: " ++ p ++
        "\nTexto de referência (se houver):\n" ++ s2 ++
        "\nResponda apenas com o texto final, limpo, sem marcadores, sem asteriscos, sem emojis e pronto para ser utilizado em um documento Word (.docx).\n") =
      iaLit1 ++ p ++ iaLit2 ++ s2 ++ iaLit3 := by
  unfold jsTrim
  have hdata :
      ("\nVocê é um assistente jurídico brasileiro.\nTarefa: " ++ p ++
        "\nTexto de referência (se houver):\n" ++ s2 ++
        "\nResponda apenas com o texto final, limpo, sem marcadores, sem asteriscos, sem emojis e pronto para ser utilizado em um documento Word (.docx).\n").data =
      '\n' :: ((iaLit1 ++ p ++ iaLit2 ++ s2 ++ iaLit3).data ++ ['\n']) := by
    simp [string_data_append, iaLit1, iaLit2, iaLit3, List.append_assoc]
  have hassoc : (iaLit1 ++ p ++ iaLit2 ++ s2 ++ iaLit3).data =
      iaLit1.data ++ (p.data ++ (iaLit2.data ++ (s2.data ++ iaLit3.data))) := by
    simp [string_data_append, List.append_assoc]
  have h1 : (iaLit1 ++ p ++ iaLit2 ++ s2 ++ iaLit3).data.dropWhile isJsWs =
      (iaLit1 ++ p ++ iaLit2 ++ s2 ++ iaLit3).data := by
    rw [hassoc]
    exact dropWhile_eq_self_append _ (by decide) (by decide)
  have h2 : (iaLit1 ++ p ++ iaLit2 ++ s2 ++ iaLit3).data.reverse.dropWhile isJsWs =
      (iaLit1 ++ p ++ iaLit2 ++ s2 ++ iaLit3).data.reverse := by
    have hrev : (iaLit1 ++ p ++ iaLit2 ++ s2 ++ iaLit3).data.reverse =
        iaLit3.data.reverse ++ (s2.data.reverse ++ (iaLit2.data.reverse ++
          (p.data.reverse ++ iaLit1.data.reverse))) := by
      rw [hassoc]
      simp [List.reverse_append, List.append_assoc]
    rw [hrev]
    exact dropWhile_eq_self_append _ (by decide) (by decide)
  rw [hdata, trimChars_sandwich _ h1 h2]

theorem find?_eq_some_of_unique {α : Type} (p : α → Bool) (l : List α) (a : α)
    (ha : a ∈ l) (hpa : p a = true) (huniq : ∀ b ∈ l, p b = true → b = a) :
    l.find? p = some a := by
  induction l with
  | nil => cases ha
  | cons x t ih =>
    by_cases hx : p x = true
    · have hxa : x = a := huniq x (List.mem_cons_self x t) hx
      rw [List.find?_cons_of_pos t hx, hxa]
    · have hat : a ∈ t := by
        rcases List.mem_cons.mp ha with h | h
        · rw [h] at hpa; exact absurd hpa hx
        · exact h
      rw [List.find?_cons_of_neg t hx]
      exact ih hat (fun b hb hpb => huniq b (List.mem_cons_of_mem x hb) hpb)

theorem lookupA_insertA (m : AMap) (k v : String) :
    lookupA (insertA m k v) k = some v := by
  induction m with
  | nil => simp [insertA, lookupA, List.find?]
  | cons p t ih =>
    by_cases hk : (p.1 == k) = true
    · rw [insertA, if_pos hk]
      simp [lookupA, List.find?]
    · rw [insertA, if_neg hk]
      simpa [lookupA, List.find?, hk] using ih

theorem clientMatch_false_of_no_pair (cid csec : String) (c : ClientRecord)
    (hc : ¬((c.id == cid && c.secret == csec) = true)) :
    clientMatch cid csec c = false := by
  unfold clientMatch
  cases hid : c.id == cid <;> cases hsc : c.secret == csec <;> simp_all

theorem updateKey_find (l : List ClientRecord) (cid csec key : String)
    (l2 : List ClientRecord) (hsec : csec ≠ "")
    (h : updateKey l cid csec key = some l2) :
    ∃ r2, l2.find? (clientMatch cid csec) = some r2 ∧
      r2.openaiApiKey = some key ∧ r2.id = cid ∧ r2.secret = csec := by
  induction l generalizing l2 with
  | nil => simp [updateKey] at h
  | cons c t ih =>
    by_cases hc : (c.id == cid && c.secret == csec) = true
    · rw [updateKey, if_pos hc] at h
      obtain ⟨hid, hsc⟩ := Bool.and_eq_true_iff.mp hc
      have hid2 : c.id = cid := beq_iff_eq.mp hid
      have hsc2 : c.secret = csec := beq_iff_eq.mp hsc
      have hl2 : l2 = { c with openaiApiKey := some key } :: t := (Option.some.injEq _ _).mp h.symm
      refine ⟨{ c with openaiApiKey := some key }, ?_, rfl, hid2, hsc2⟩
      rw [hl2]
      apply List.find?_cons_of_pos
      simp [clientMatch, hid2, hsc2, hsec]
    · rw [updateKey, if_neg hc] at h
      obtain ⟨t2, ht2, hcons⟩ := Option.map_eq_some'.mp h
      obtain ⟨r2, hfind, hkey, hid, hsec2⟩ := ih t2 ht2
      refine ⟨r2, ?_, hkey, hid, hsec2⟩
      rw [← hcons]
      rw [List.find?_cons_of_neg]
      · exact hfind
      · simp [clientMatch_false_of_no_pair cid csec c hc]

theorem updateKey_idem (l : List ClientRecord) (cid csec key : String)
    (l2 : List ClientRecord) (h : updateKey l cid csec key = some l2) :
    updateKey l2 cid csec key = some l2 := by
  induction l generalizing l2 with
  | nil => simp [updateKey] at h
  | cons c t ih =>
    by_cases hc : (c.id == cid && c.secret == csec) = true
    · rw [updateKey, if_pos hc] at h
      have hl2 : l2 = { c with openaiApiKey := some key } :: t := (Option.some.injEq _ _).mp h.symm
      rw [hl2, updateKey, if_pos (by simpa using hc)]
    · rw [updateKey, if_neg hc] at h
      obtain ⟨t2, ht2, hcons⟩ := Option.map_eq_some'.mp h
      rw [← hcons, updateKey, if_neg hc, ih t2 ht2]
      rfl

theorem truthyOpt_true_iff (o : Option String) :
    truthyOpt o = true ↔ ∃ s, o = some s ∧ s ≠ "" := by
  cases o <;> simp [truthyOpt]

theorem resolveApiKey_stored (stored envKey : Option String)
    (h : truthyOpt stored = true) : resolveApiKey stored envKey = stored := by
  unfold resolveApiKey
  simp [h]

theorem resolveApiKey_env (stored envKey : Option String)
    (h : truthyOpt stored = false) (he : truthyOpt envKey = true) :
    resolveApiKey stored envKey = envKey := by
  unfold resolveApiKey
  simp [h, he]

theorem resolveApiKey_neither (stored envKey : Option String)
    (h : truthyOpt stored = false) (he : truthyOpt envKey = false) :
    resolveApiKey stored envKey = none := by
  unfold resolveApiKey
  simp [h, he]

theorem iaPhase1_auth (clients : List ClientRecord) (mem : AMap)
    (disk : AssistantsFile) (envKey : Option String) (req : IaRequest)
    (r : ClientRecord) (h1 : req.clientId ≠ "") (h2 : req.clientSecret ≠ "")
    (h3 : req.prompt ≠ "")
    (hrec : getClientRecord clients req.clientId req.clientSecret = some r) :
    iaPhase1 clients mem disk envKey req =
      match resolveApiKey r.openaiApiKey envKey with
      | none => .respond 500 "No OpenAI API key configured for this client"
      | some k => .callUpstream k
          (match lookupA (loadAssistants mem disk) req.clientId with
           | some s => if s == "" then defaultSystemPrompt else s
           | none => defaultSystemPrompt)
          (iaUserPrompt req.prompt req.selectedText) := by
  unfold iaPhase1
  rw [if_neg (by simp [h1, h2])]
  simp only [hrec]
  rw [if_neg (by simp [h3])]

theorem configurePhase1_auth (clients : List ClientRecord) (envKey : Option String)
    (req : CfgRequest) (r : ClientRecord) (h1 : req.clientId ≠ "")
    (h2 : req.clientSecret ≠ "") (h3 : req.rawPrompt ≠ "")
    (hrec : getClientRecord clients req.clientId req.clientSecret = some r) :
    configurePhase1 clients envKey req =
      match resolveApiKey r.openaiApiKey envKey with
      | none => .respond 500 "No OpenAI API key configured"
      | some k => .callUpstream k cfgSystemPrompt (cfgUserPrompt req.rawPrompt) := by
  unfold configurePhase1
  rw [if_neg (by simp [h1, h2])]
  simp only [hrec]
  rw [if_neg (by simp [h3])]

theorem analyzePhase1_auth (clients : List ClientRecord) (envKey : Option String)
    (req : AnalyzeRequest) (r : ClientRecord) (h1 : req.clientId ≠ "")
    (h2 : req.clientSecret ≠ "") (h3 : req.documentText ≠ "")
    (hrec : getClientRecord clients req.clientId req.clientSecret = some r) :
    analyzePhase1 clients envKey req =
      match resolveApiKey r.openaiApiKey envKey with
      | none => .respond 500 "No OpenAI API key configured"
      | some k => .callUpstream k expertPrompt
          ("Aqui está o texto do documento para análise:\n\n" ++ req.documentText) := by
  unfold analyzePhase1
  rw [if_neg (by simp [h1, h2])]
  simp only [hrec]
  rw [if_neg (by simp [h3])]

/-! ## Claim theorems -/

/-- C3 counterexample: a load with a missing override file does not yield
an empty mapping — the previous in-memory mapping (here one entry) is
kept, so "when the override file does not exist, the resulting in-memory
mapping is empty" fails, as does "only a successful parse yields a
non-empty mapping". -/
theorem c3_counterexample :
    loadAssistants [("x", "t")] .missing = [("x", "t")] ∧
    loadAssistants [("x", "t")] .missing ≠ ([] : AMap) :=
  ⟨rfl, by decide⟩

/-- C3 (amended): a load with a missing override file leaves the
in-memory mapping unchanged — hence empty at the initial load, where the
mapping starts empty; a load whose parse fails yields an empty mapping,
discarding whatever was previously in memory; a successful parse replaces
the mapping with the parsed file contents. -/
theorem c3_load_behavior :
    loadAssistants [] .missing = ([] : AMap) ∧
    (∀ mem : AMap, loadAssistants mem .missing = mem) ∧
    (∀ mem : AMap, loadAssistants mem .corrupt = []) ∧
    (∀ (mem m : AMap), loadAssistants mem (.parsed m) = m) :=
  ⟨rfl, fun _ => rfl, fun _ => rfl, fun _ _ => rfl⟩

/-- C4: the `/api/ia` reply extraction returns the first choice's message
content trimmed of surrounding whitespace when that content is a string,
and the fixed fallback string whenever the response is missing, the
choices field is absent or not an array, the choices array is empty, or
the first choice is null, has no message, or has a non-string content. -/
theorem c4_reply_extraction :
    (∀ (s : String) (rest : List ChoiceVal),
      extractIaAnswer (.choices (.val (some (.str s)) :: rest)) = jsTrim s) ∧
    extractIaAnswer .missing = iaFallback ∧
    extractIaAnswer .badChoices = iaFallback ∧
    extractIaAnswer (.choices []) = iaFallback ∧
    (∀ rest, extractIaAnswer (.choices (.nullChoice :: rest)) = iaFallback) ∧
    (∀ rest, extractIaAnswer (.choices (.val none :: rest)) = iaFallback) ∧
    (∀ rest, extractIaAnswer (.choices (.val (some .notString) :: rest)) = iaFallback) :=
  ⟨fun _ _ => rfl, rfl, rfl, rfl, fun _ => rfl, fun _ => rfl, fun _ => rfl⟩

/-- C5: the composed Generate user prompt is the fixed template with the
task and the non-empty selected text spliced in verbatim (so the prompt
contains both as substrings); for empty or absent selected text the
placeholder sentence takes its place; and when the request's mode field
is absent the response's mode is "replace". -/
theorem c5_generate_prompt (task sel : String) (hsel : sel ≠ "") :
    iaUserPrompt task sel = iaLit1 ++ task ++ iaLit2 ++ sel ++ iaLit3 ∧
    (∀ q : String, iaUserPrompt q "" =
      iaLit1 ++ q ++ iaLit2 ++ "(nenhum texto selecionado)" ++ iaLit3) ∧
    (∀ (req : IaRequest) (c : IaCompletion),
      req.mode = "" → (iaResponse req c).mode = "replace") := by
  refine ⟨?_, ?_, ?_⟩
  · unfold iaUserPrompt
    rw [if_neg (by simp [hsel])]
    exact iaTemplate_trim task sel
  · intro q
    unfold iaUserPrompt
    rw [if_pos (by simp)]
    exact iaTemplate_trim q _
  · intro req c h
    unfold iaResponse
    simp [h]

/-- C5 witness: the concrete instance of the spec's example. -/
theorem c5_generate_prompt_witness :
    iaUserPrompt "Resuma isto" "Lorem ipsum" =
      iaLit1 ++ "Resuma isto" ++ iaLit2 ++ "Lorem ipsum" ++ iaLit3 :=
  (c5_generate_prompt "Resuma isto" "Lorem ipsum" (by decide)).1

/-- C8: saving an override for tenant X and then loading the store from
disk in a fresh process (empty in-memory mapping, as after a restart)
yields exactly the saved override text for X, whatever the prior memory
and disk state were. -/
theorem c8_save_reload_roundtrip (mem : AMap) (disk : AssistantsFile) (X t : String) :
    lookupA (loadAssistants [] (saveAssistant mem disk X t).2) X = some t := by
  show lookupA (loadAssistants []
    (AssistantsFile.parsed (insertA (loadAssistants mem disk) X t))) X = some t
  exact lookupA_insertA _ X t

/-- C1: with unique tenant ids (the store's invariant), the
authentication lookup returns, for non-empty supplied credentials,
exactly the record whose id matches and whose secret is non-empty and
equals the supplied secret; it returns none whenever a supplied field is
empty or no record matches; and each handler answers 401 for a non-empty
non-matching pair (for save-key, with the apiKey field also present, as
its absence is rejected with 400 before authentication). -/
theorem c1_authentication (clients : List ClientRecord)
    (hu : (clients.map (fun c => c.id)).Nodup) :
    (∀ (cid csec : String) (r : ClientRecord),
      cid ≠ "" → r ∈ clients → r.id = cid → r.secret ≠ "" → r.secret = csec →
      getClientRecord clients cid csec = some r) ∧
    (∀ cid csec : String,
      cid = "" ∨ csec = "" ∨
        (∀ r ∈ clients, ¬(r.id = cid ∧ r.secret ≠ "" ∧ r.secret = csec)) →
      getClientRecord clients cid csec = none) ∧
    (∀ (mem : AMap) (disk : AssistantsFile) (envKey : Option String) (req : IaRequest),
      req.clientId ≠ "" → req.clientSecret ≠ "" →
      getClientRecord clients req.clientId req.clientSecret = none →
      iaPhase1 clients mem disk envKey req = .respond 401 "Invalid client credentials") ∧
    (∀ (envKey : Option String) (req : CfgRequest),
      req.clientId ≠ "" → req.clientSecret ≠ "" →
      getClientRecord clients req.clientId req.clientSecret = none →
      configurePhase1 clients envKey req = .respond 401 "Invalid client credentials") ∧
    (∀ (envKey : Option String) (req : AnalyzeRequest),
      req.clientId ≠ "" → req.clientSecret ≠ "" →
      getClientRecord clients req.clientId req.clientSecret = none →
      analyzePhase1 clients envKey req = .respond 401 "Invalid client credentials") ∧
    (∀ (disk : ClientsFile) (req : SaveKeyRequest),
      req.clientId ≠ "" → req.clientSecret ≠ "" → req.apiKey ≠ "" →
      getClientRecord clients req.clientId req.clientSecret = none →
      saveKeyHandler clients disk req =
        ⟨401, "Invalid client credentials", clients, disk⟩) := by
  refine ⟨?_, ?_, ?_, ?_, ?_, ?_⟩
  · intro cid csec r hcid hr hid hsecne hsec
    have hcsec : csec ≠ "" := hsec ▸ hsecne
    unfold getClientRecord
    rw [if_neg (by simp [hcid, hcsec])]
    apply find?_eq_some_of_unique _ _ _ hr
    · simp [clientMatch, hid, hsecne, hsec, hcsec]
    · intro b hb hpb
      simp only [clientMatch, Bool.and_eq_true, beq_iff_eq] at hpb
      exact List.inj_on_of_nodup_map hu hb hr (by rw [hpb.1, hid])
  · intro cid csec h
    unfold getClientRecord
    rcases h with h | h | h
    · rw [if_pos (by simp [h])]
    · rw [if_pos (by simp [h])]
    · by_cases hempty : (cid == "" || csec == "") = true
      · rw [if_pos hempty]
      · rw [if_neg hempty]
        rw [List.find?_eq_none]
        intro r hr hpr
        simp only [clientMatch, Bool.and_eq_true, beq_iff_eq, bne_iff_ne, ne_eq,
          Bool.not_eq_true', beq_eq_false_iff_ne] at hpr
        exact h r hr ⟨hpr.1, hpr.2.1, hpr.2.2⟩
  · intro mem disk envKey req h1 h2 hnone
    unfold iaPhase1
    rw [if_neg (by simp [h1, h2]), hnone]
  · intro envKey req h1 h2 hnone
    unfold configurePhase1
    rw [if_neg (by simp [h1, h2]), hnone]
  · intro envKey req h1 h2 hnone
    unfold analyzePhase1
    rw [if_neg (by simp [h1, h2]), hnone]
  · intro disk req h1 h2 h3 hnone
    unfold saveKeyHandler
    rw [if_neg (by simp [h1, h2]), if_neg (by simp [h3]), hnone]

/-- C1 witness: a one-tenant store where the matching pair is found and a
mismatching pair drives the Generate handler to 401. -/
theorem c1_authentication_witness :
    getClientRecord [⟨"c1", "s1", none⟩] "c1" "s1" = some ⟨"c1", "s1", none⟩ ∧
    getClientRecord [⟨"c1", "s1", none⟩] "c1" "wrong" = none ∧
    iaPhase1 [⟨"c1", "s1", none⟩] [] .missing none ⟨"c1", "wrong", "t", "", ""⟩ =
      .respond 401 "Invalid client credentials" := by
  have h := c1_authentication [⟨"c1", "s1", none⟩] (by decide)
  refine ⟨?_, ?_, ?_⟩
  · exact h.1 "c1" "s1" ⟨"c1", "s1", none⟩ (by decide) (by decide) rfl (by decide) rfl
  · exact h.2.1 "c1" "wrong" (Or.inr (Or.inr (by decide)))
  · exact h.2.2.1 [] .missing none ⟨"c1", "wrong", "t", "", ""⟩ (by decide) (by decide)
      (h.2.1 "c1" "wrong" (Or.inr (Or.inr (by decide))))

/-- C2 counterexample: a tenant whose stored key field is present but
holds the empty string; the outbound Generate call uses the environment
key, not the (present) stored key, so "the API key used ... is the tenant
record's stored key when present" fails. -/
theorem c2_counterexample :
    (⟨"c1", "s1", some ""⟩ : ClientRecord).openaiApiKey = some "" ∧
    stepApiKey (iaPhase1 [⟨"c1", "s1", some ""⟩] [] .missing (some "ENVKEY")
      ⟨"c1", "s1", "tarefa", "", ""⟩) = some "ENVKEY" ∧
    (some "ENVKEY" : Option String) ≠ some "" :=
  ⟨rfl, rfl, by decide⟩

/-- C2 (amended): for every authenticated Generate, Configure or Analyze
request, the outbound completion call uses the tenant's stored key when
that key is present and non-empty; when the stored key is absent or
empty, it uses the process-wide environment key when that is present and
non-empty; and when neither yields a non-empty key the handler responds
500 with a configuration error and makes no outbound call. -/
theorem c2_key_resolution :
    (∀ (clients : List ClientRecord) (mem : AMap) (disk : AssistantsFile)
        (envKey : Option String) (req : IaRequest) (r : ClientRecord),
      req.clientId ≠ "" → req.clientSecret ≠ "" → req.prompt ≠ "" →
      getClientRecord clients req.clientId req.clientSecret = some r →
      (truthyOpt r.openaiApiKey = true →
        stepApiKey (iaPhase1 clients mem disk envKey req) = r.openaiApiKey) ∧
      (truthyOpt r.openaiApiKey = false → truthyOpt envKey = true →
        stepApiKey (iaPhase1 clients mem disk envKey req) = envKey) ∧
      (truthyOpt r.openaiApiKey = false → truthyOpt envKey = false →
        iaPhase1 clients mem disk envKey req =
          .respond 500 "No OpenAI API key configured for this client" ∧
        isUpstreamCall (iaPhase1 clients mem disk envKey req) = false)) ∧
    (∀ (clients : List ClientRecord) (envKey : Option String)
        (req : CfgRequest) (r : ClientRecord),
      req.clientId ≠ "" → req.clientSecret ≠ "" → req.rawPrompt ≠ "" →
      getClientRecord clients req.clientId req.clientSecret = some r →
      (truthyOpt r.openaiApiKey = true →
        stepApiKey (configurePhase1 clients envKey req) = r.openaiApiKey) ∧
      (truthyOpt r.openaiApiKey = false → truthyOpt envKey = true →
        stepApiKey (configurePhase1 clients envKey req) = envKey) ∧
      (truthyOpt r.openaiApiKey = false → truthyOpt envKey = false →
        configurePhase1 clients envKey req =
          .respond 500 "No OpenAI API key configured" ∧
        isUpstreamCall (configurePhase1 clients envKey req) = false)) ∧
    (∀ (clients : List ClientRecord) (envKey : Option String)
        (req : AnalyzeRequest) (r : ClientRecord),
      req.clientId ≠ "" → req.clientSecret ≠ "" → req.documentText ≠ "" →
      getClientRecord clients req.clientId req.clientSecret = some r →
      (truthyOpt r.openaiApiKey = true →
        stepApiKey (analyzePhase1 clients envKey req) = r.openaiApiKey) ∧
      (truthyOpt r.openaiApiKey = false → truthyOpt envKey = true →
        stepApiKey (analyzePhase1 clients envKey req) = envKey) ∧
      (truthyOpt r.openaiApiKey = false → truthyOpt envKey = false →
        analyzePhase1 clients envKey req =
          .respond 500 "No OpenAI API key configured" ∧
        isUpstreamCall (analyzePhase1 clients envKey req) = false)) := by
  refine ⟨?_, ?_, ?_⟩
  · intro clients mem disk envKey req r h1 h2 h3 hrec
    have hbase := iaPhase1_auth clients mem disk envKey req r h1 h2 h3 hrec
    refine ⟨?_, ?_, ?_⟩
    · intro ht
      obtain ⟨s, hs, _⟩ := (truthyOpt_true_iff _).mp ht
      rw [hbase, resolveApiKey_stored _ _ ht, hs]
      rfl
    · intro hf he
      obtain ⟨e, he2, _⟩ := (truthyOpt_true_iff _).mp he
      rw [hbase, resolveApiKey_env _ _ hf he, he2]
      rfl
    · intro hf he
      rw [hbase, resolveApiKey_neither _ _ hf he]
      exact ⟨rfl, rfl⟩
  · intro clients envKey req r h1 h2 h3 hrec
    have hbase := configurePhase1_auth clients envKey req r h1 h2 h3 hrec
    refine ⟨?_, ?_, ?_⟩
    · intro ht
      obtain ⟨s, hs, _⟩ := (truthyOpt_true_iff _).mp ht
      rw [hbase, resolveApiKey_stored _ _ ht, hs]
      rfl
    · intro hf he
      obtain ⟨e, he2, _⟩ := (truthyOpt_true_iff _).mp he
      rw [hbase, resolveApiKey_env _ _ hf he, he2]
      rfl
    · intro hf he
      rw [hbase, resolveApiKey_neither _ _ hf he]
      exact ⟨rfl, rfl⟩
  · intro clients envKey req r h1 h2 h3 hrec
    have hbase := analyzePhase1_auth clients envKey req r h1 h2 h3 hrec
    refine ⟨?_, ?_, ?_⟩
    · intro ht
      obtain ⟨s, hs, _⟩ := (truthyOpt_true_iff _).mp ht
      rw [hbase, resolveApiKey_stored _ _ ht, hs]
      rfl
    · intro hf he
      obtain ⟨e, he2, _⟩ := (truthyOpt_true_iff _).mp he
      rw [hbase, resolveApiKey_env _ _ hf he, he2]
      rfl
    · intro hf he
      rw [hbase, resolveApiKey_neither _ _ hf he]
      exact ⟨rfl, rfl⟩

/-- C2 witness: a tenant with a non-empty stored key whose Generate call
uses exactly that key. -/
theorem c2_key_resolution_witness :
    stepApiKey (iaPhase1 [⟨"c1", "s1", some "TENANTKEY"⟩] [] .missing none
      ⟨"c1", "s1", "tarefa", "", ""⟩) = some "TENANTKEY" :=
  (c2_key_resolution.1 [⟨"c1", "s1", some "TENANTKEY"⟩] [] .missing none
    ⟨"c1", "s1", "tarefa", "", ""⟩ ⟨"c1", "s1", some "TENANTKEY"⟩
    (by decide) (by decide) (by decide) rfl).1 (by decide)

/-- C6: a save-key request with a non-empty (clientId, clientSecret) pair
(and the apiKey field present) that matches no record in the in-memory
Tenant Store is answered 401 and changes neither the in-memory list nor
the on-disk file. -/
theorem c6_save_key_unauthenticated (mem : List ClientRecord) (disk : ClientsFile)
    (req : SaveKeyRequest) (h1 : req.clientId ≠ "") (h2 : req.clientSecret ≠ "")
    (h3 : req.apiKey ≠ "")
    (hnone : getClientRecord mem req.clientId req.clientSecret = none) :
    saveKeyHandler mem disk req = ⟨401, "Invalid client credentials", mem, disk⟩ := by
  unfold saveKeyHandler
  rw [if_neg (by simp [h1, h2]), if_neg (by simp [h3]), hnone]

/-- C6 witness: a mismatching secret leaves both stores untouched and
yields 401. -/
theorem c6_save_key_unauthenticated_witness :
    getClientRecord [⟨"c1", "s1", none⟩] "c1" "bad" = none ∧
    saveKeyHandler [⟨"c1", "s1", none⟩] (.parsed [⟨"c1", "s1", none⟩])
        ⟨"c1", "bad", "K"⟩ =
      ⟨401, "Invalid client credentials", [⟨"c1", "s1", none⟩],
        .parsed [⟨"c1", "s1", none⟩]⟩ :=
  ⟨rfl, c6_save_key_unauthenticated _ _ _ (by decide) (by decide) (by decide) rfl⟩

/-- C7: an authenticated save-key for a tenant present in the on-disk
file answers 200, stores the new key both in the persisted file and in
the in-memory list, a subsequent lookup with the same credentials finds a
record carrying the new key, and the operation is idempotent: repeating
the identical save leaves the stored state exactly as after the first. -/
theorem c7_save_key_success (mem l l2 : List ClientRecord)
    (req : SaveKeyRequest) (r : ClientRecord)
    (h1 : req.clientId ≠ "") (h2 : req.clientSecret ≠ "") (h3 : req.apiKey ≠ "")
    (hrec : getClientRecord mem req.clientId req.clientSecret = some r)
    (hupd : updateKey l req.clientId req.clientSecret req.apiKey = some l2) :
    saveKeyHandler mem (.parsed l) req =
      ⟨200, "API Key salva com sucesso.", l2, .parsed l2⟩ ∧
    (∃ r2, getClientRecord l2 req.clientId req.clientSecret = some r2 ∧
      r2.openaiApiKey = some req.apiKey) ∧
    saveKeyHandler l2 (.parsed l2) req =
      ⟨200, "API Key salva com sucesso.", l2, .parsed l2⟩ := by
  obtain ⟨r2, hfind, hkey, hid, hsec⟩ :=
    updateKey_find l req.clientId req.clientSecret req.apiKey l2 h2 hupd
  have hget2 : getClientRecord l2 req.clientId req.clientSecret = some r2 := by
    unfold getClientRecord
    rw [if_neg (by simp [h1, h2])]
    exact hfind
  refine ⟨?_, ⟨r2, hget2, hkey⟩, ?_⟩
  · unfold saveKeyHandler
    rw [if_neg (by simp [h1, h2]), if_neg (by simp [h3]), hrec]
    simp only [hupd]
  · unfold saveKeyHandler
    rw [if_neg (by simp [h1, h2]), if_neg (by simp [h3]), hget2]
    simp only [updateKey_idem l req.clientId req.clientSecret req.apiKey l2 hupd]

/-- C7 witness: saving a key for the single stored tenant updates its
record in file and memory. -/
theorem c7_save_key_success_witness :
    saveKeyHandler [⟨"c1", "s1", none⟩] (.parsed [⟨"c1", "s1", none⟩])
        ⟨"c1", "s1", "K"⟩ =
      ⟨200, "API Key salva com sucesso.", [⟨"c1", "s1", some "K"⟩],
        .parsed [⟨"c1", "s1", some "K"⟩]⟩ :=
  (c7_save_key_success [⟨"c1", "s1", none⟩] [⟨"c1", "s1", none⟩]
    [⟨"c1", "s1", some "K"⟩] ⟨"c1", "s1", "K"⟩ ⟨"c1", "s1", none⟩
    (by decide) (by decide) (by decide) rfl rfl).1

/-- C9: an Analyze request whose documentText is the empty string never
reaches the outbound completion call, and for an authenticated request it
is answered 400. -/
theorem c9_analyze_empty_document :
    (∀ (clients : List ClientRecord) (envKey : Option String) (req : AnalyzeRequest),
      req.documentText = "" →
      isUpstreamCall (analyzePhase1 clients envKey req) = false) ∧
    (∀ (clients : List ClientRecord) (envKey : Option String) (req : AnalyzeRequest)
        (r : ClientRecord),
      req.clientId ≠ "" → req.clientSecret ≠ "" →
      getClientRecord clients req.clientId req.clientSecret = some r →
      req.documentText = "" →
      analyzePhase1 clients envKey req = .respond 400 "Missing documentText") := by
  constructor
  · intro clients envKey req hdoc
    unfold analyzePhase1
    split
    · rfl
    · split
      · rfl
      · rw [if_pos (by simp [hdoc])]
        rfl
  · intro clients envKey req r h1 h2 hrec hdoc
    unfold analyzePhase1
    rw [if_neg (by simp [h1, h2])]
    simp only [hrec]
    rw [if_pos (by simp [hdoc])]

/-- C9 witness: the empty document is rejected with 400 for a valid
tenant. -/
theorem c9_analyze_empty_document_witness :
    analyzePhase1 [⟨"c1", "s1", none⟩] none ⟨"c1", "s1", ""⟩ =
      .respond 400 "Missing documentText" :=
  c9_analyze_empty_document.2 [⟨"c1", "s1", none⟩] none ⟨"c1", "s1", ""⟩
    ⟨"c1", "s1", none⟩ (by decide) (by decide) rfl rfl

/-- C10: a stored empty-string override is invisible at Generate — the
system prompt sent upstream is the hard-coded default persona, exactly as
when no override is stored at all — and Configure persists an empty
override whenever the model reply is a non-empty string that trims to the
empty string (an entirely empty reply is falsy and keeps the fallback,
hence the non-emptiness hypothesis). -/
theorem c10_empty_override (clients : List ClientRecord) (mem : AMap)
    (disk : AssistantsFile) (envKey : Option String) (req : IaRequest)
    (r : ClientRecord) (k : String)
    (h1 : req.clientId ≠ "") (h2 : req.clientSecret ≠ "") (h3 : req.prompt ≠ "")
    (hrec : getClientRecord clients req.clientId req.clientSecret = some r)
    (hkey : resolveApiKey r.openaiApiKey envKey = some k)
    (hov : lookupA (loadAssistants mem disk) req.clientId = some "") :
    iaPhase1 clients mem disk envKey req =
      .callUpstream k defaultSystemPrompt (iaUserPrompt req.prompt req.selectedText) ∧
    (∀ (mem2 : AMap) (disk2 : AssistantsFile),
      lookupA (loadAssistants mem2 disk2) req.clientId = none →
      iaPhase1 clients mem2 disk2 envKey req = iaPhase1 clients mem disk envKey req) ∧
    (∀ (mem3 : AMap) (disk3 : AssistantsFile) (cid s : String),
      s ≠ "" → jsTrim s = "" →
      cfgOptimizedPrompt (.firstContent (.strContent s)) = some "" ∧
      lookupA (configureFinish mem3 disk3 cid
        (.firstContent (.strContent s))).assistants cid = some "") := by
  have hmain : iaPhase1 clients mem disk envKey req =
      .callUpstream k defaultSystemPrompt (iaUserPrompt req.prompt req.selectedText) := by
    rw [iaPhase1_auth clients mem disk envKey req r h1 h2 h3 hrec, hkey, hov]
    rfl
  refine ⟨hmain, ?_, ?_⟩
  · intro mem2 disk2 hnone
    rw [hmain, iaPhase1_auth clients mem2 disk2 envKey req r h1 h2 h3 hrec, hkey, hnone]
  · intro mem3 disk3 cid s hs htrim
    have hopt : cfgOptimizedPrompt (.firstContent (.strContent s)) = some "" := by
      show (if (s == "") = true then some cfgFallback else some (jsTrim s)) = some ""
      rw [if_neg (by simp [hs]), htrim]
    refine ⟨hopt, ?_⟩
    unfold configureFinish
    rw [hopt]
    show lookupA (insertA (loadAssistants mem3 disk3) cid "") cid = some ""
    exact lookupA_insertA _ _ _

/-- C10 witness: a tenant whose stored override is the empty string gets
the default persona in its Generate call. -/
theorem c10_empty_override_witness :
    iaPhase1 [⟨"c1", "s1", none⟩] [("c1", "")] .missing (some "EK")
      ⟨"c1", "s1", "tarefa", "", ""⟩ =
      .callUpstream "EK" defaultSystemPrompt (iaUserPrompt "tarefa" "") :=
  (c10_empty_override [⟨"c1", "s1", none⟩] [("c1", "")] .missing (some "EK")
    ⟨"c1", "s1", "tarefa", "", ""⟩ ⟨"c1", "s1", none⟩ "EK"
    (by decide) (by decide) (by decide) rfl rfl rfl).1

end WordAddin
